import Mathlib

/-!
# Fabric ripper controller

A shallow embedding of `src/fabric-ripper.cpp` and `src/config.h`.

* 8-bit registers and `uint8_t` values are natural numbers, stored through `u8`
  (reduction modulo 256); `uint16_t` counters are stored through `u16`.
* `int16_t` and promoted `int` values are integers.  For 8-bit operands the
  difference `target - current` lies in `-255 .. 255`, so no 16-bit wrap occurs.
* Function-local statics (`lit`, `forwardTarget`, `counter`) and the locals of
  `main` that live across loop iterations are fields of `State`.
-/

namespace FabricRipper

/-! ## Configuration (`config.h`) -/

/-- The constants of `config.h` read by the control logic. -/
structure Config where
  INDICATOR_HALF_PERIOD : Nat
  ENABLE_ON_PERIOD : Nat
  ENABLE_OFF_PERIOD : Nat
  SPOOL_SPEED : Nat
  SPOOL_ACCELERATION : Nat
  GUIDE_SPEED : Nat
  GUIDE_ACCELERATION : Nat
  GUIDE_ON_PERIOD : Nat
  GUIDE_OFF_PERIOD : Nat
  deriving DecidableEq, Repr

/-- The values written in `config.h`. -/
def config : Config where
  INDICATOR_HALF_PERIOD := 20
  ENABLE_ON_PERIOD := 2 * 600
  ENABLE_OFF_PERIOD := 10 * 600
  SPOOL_SPEED := 0x40
  SPOOL_ACCELERATION := 0x40
  GUIDE_SPEED := 0x80
  GUIDE_ACCELERATION := 0x80
  GUIDE_ON_PERIOD := 10
  GUIDE_OFF_PERIOD := 30

/-! ## Machine integers -/

/-- Conversion to `uint8_t`. -/
def u8 (n : Nat) : Nat := n % 256

/-- Conversion to `uint16_t`. -/
def u16 (n : Nat) : Nat := n % 65536

/-- The compound assignment `reg += delta` on an 8-bit register with an
`int16_t` right-hand side: the sum is formed in `int` and truncated to 8 bits. -/
def addAssign8 (reg : Nat) (delta : Int) : Nat := (((reg : Int) + delta) % 256).toNat

/-! ## Program state -/

/-- Registers, function-local statics and the loop-carried locals of `main`.
`toggleCalls` is a ghost field counting the invocations of `toggleIndicator`. -/
structure State where
  MOTOR_1_FORWARD_OUTPUT_COMPARE : Nat
  MOTOR_1_REVERSE_OUTPUT_COMPARE : Nat
  MOTOR_2_FORWARD_OUTPUT_COMPARE : Nat
  MOTOR_2_REVERSE_OUTPUT_COMPARE : Nat
  INDICATOR_DATA_PIN : Bool
  lit : Bool
  forwardTarget : Nat
  counter : Nat
  indicatorCounter : Nat
  enableCounter : Nat
  toggleCalls : Nat
  deriving DecidableEq, Repr

/-! ## Functions of `fabric-ripper.cpp` -/

/-- `toggleIndicator()`. -/
def toggleIndicator (s : State) : State :=
  let s := if s.lit then { s with INDICATOR_DATA_PIN := false }
           else { s with INDICATOR_DATA_PIN := true }
  { s with lit := !s.lit, toggleCalls := s.toggleCalls + 1 }

/-- `initializeMotors()`. -/
def initializeMotors (cfg : Config) (s : State) : State :=
  { s with
    MOTOR_1_FORWARD_OUTPUT_COMPARE := u8 cfg.SPOOL_SPEED
    MOTOR_1_REVERSE_OUTPUT_COMPARE := 0x00
    MOTOR_2_FORWARD_OUTPUT_COMPARE := u8 cfg.GUIDE_SPEED
    MOTOR_2_REVERSE_OUTPUT_COMPARE := 0x00 }

/-- `acceleration(current, target, maxAcceleration)`. -/
def acceleration (current target maxAcceleration : Nat) : Int :=
  let acceleration : Int := (target : Int) - (current : Int)
  if acceleration > (maxAcceleration : Int) then (maxAcceleration : Int) else acceleration

/-- `updateMotor1Speed(forwardTarget, reverseTarget, acceleration)`. -/
def updateMotor1Speed (forwardTarget reverseTarget acceleration : Nat) (s : State) : State :=
  let s :=
    if s.MOTOR_1_REVERSE_OUTPUT_COMPARE = 0 then
      { s with
        MOTOR_1_FORWARD_OUTPUT_COMPARE :=
          addAssign8 s.MOTOR_1_FORWARD_OUTPUT_COMPARE
            (FabricRipper.acceleration s.MOTOR_1_FORWARD_OUTPUT_COMPARE forwardTarget acceleration) }
    else s
  if s.MOTOR_1_FORWARD_OUTPUT_COMPARE = 0 then
    { s with
      MOTOR_1_REVERSE_OUTPUT_COMPARE :=
        addAssign8 s.MOTOR_1_REVERSE_OUTPUT_COMPARE
          (FabricRipper.acceleration s.MOTOR_1_REVERSE_OUTPUT_COMPARE reverseTarget acceleration) }
  else s

/-- `updateMotor2Speed(forwardTarget, reverseTarget, acceleration)`. -/
def updateMotor2Speed (forwardTarget reverseTarget acceleration : Nat) (s : State) : State :=
  let s :=
    if s.MOTOR_2_REVERSE_OUTPUT_COMPARE = 0 then
      { s with
        MOTOR_2_FORWARD_OUTPUT_COMPARE :=
          addAssign8 s.MOTOR_2_FORWARD_OUTPUT_COMPARE
            (FabricRipper.acceleration s.MOTOR_2_FORWARD_OUTPUT_COMPARE forwardTarget acceleration) }
    else s
  if s.MOTOR_2_FORWARD_OUTPUT_COMPARE = 0 then
    { s with
      MOTOR_2_REVERSE_OUTPUT_COMPARE :=
        addAssign8 s.MOTOR_2_REVERSE_OUTPUT_COMPARE
          (FabricRipper.acceleration s.MOTOR_2_REVERSE_OUTPUT_COMPARE reverseTarget acceleration) }
  else s

/-- `controlSpool(enable)`. -/
def controlSpool (cfg : Config) (enable : Bool) (s : State) : State :=
  let forwardTarget := u8 (if enable then cfg.GUIDE_SPEED else 0x00)
  updateMotor1Speed forwardTarget 0x00 (u8 cfg.GUIDE_ACCELERATION) s

/-- The duty-cycle part of `controlGuide` (lines 150-161): the statics
`counter` and `forwardTarget`. -/
def guideCycle (cfg : Config) (s : State) : State :=
  let s := { s with counter := u16 (s.counter + 1) }
  if s.counter = cfg.GUIDE_ON_PERIOD then
    { s with forwardTarget := 0x00, counter := u16 (s.counter + 1) }
  else if s.counter = cfg.GUIDE_ON_PERIOD + cfg.GUIDE_OFF_PERIOD then
    { s with forwardTarget := u8 cfg.GUIDE_SPEED, counter := 0 }
  else s

/-- The local `adjustedTarget` of `controlGuide` (line 163). -/
def adjustedTarget (cfg : Config) (enable : Bool) : Nat :=
  u8 (if enable then cfg.GUIDE_SPEED else 0x00)

/-- `controlGuide(enable)`. -/
def controlGuide (cfg : Config) (enable : Bool) (s : State) : State :=
  let s := guideCycle cfg s
  updateMotor2Speed (adjustedTarget cfg enable) 0x00 (u8 cfg.GUIDE_ACCELERATION) s

/-- Lines 205-211 of `main`: the indicator part of one loop iteration.  The
statement `indicatorCounter == 0;` is a comparison whose value is discarded. -/
def indicatorPart (cfg : Config) (s : State) : State :=
  if s.indicatorCounter = cfg.INDICATOR_HALF_PERIOD then
    toggleIndicator s
  else
    { s with indicatorCounter := u16 (s.indicatorCounter + 1) }

/-- Lines 213-223 of `main`: the local `enable` of this iteration and the
state with the updated `enableCounter`. -/
def enablePart (cfg : Config) (s : State) : Bool × State :=
  if s.enableCounter < cfg.ENABLE_ON_PERIOD then
    (true, { s with enableCounter := u16 (s.enableCounter + 1) })
  else if s.enableCounter = cfg.ENABLE_ON_PERIOD + cfg.ENABLE_OFF_PERIOD then
    (false, { s with enableCounter := 0 })
  else
    (false, { s with enableCounter := u16 (s.enableCounter + 1) })

/-- One iteration of the `while (true)` loop of `main` (lines 205-226). -/
def loopBody (cfg : Config) (s : State) : State :=
  let s := indicatorPart cfg s
  let r := enablePart cfg s
  let enable := r.1
  let s := r.2
  let s := controlSpool cfg enable s
  controlGuide cfg enable s

/-- The state when `main` enters its loop: registers and statics at their
initial values, `initializeMotors()` executed, both loop counters zero. -/
def startup (cfg : Config) : State :=
  initializeMotors cfg
    { MOTOR_1_FORWARD_OUTPUT_COMPARE := 0
      MOTOR_1_REVERSE_OUTPUT_COMPARE := 0
      MOTOR_2_FORWARD_OUTPUT_COMPARE := 0
      MOTOR_2_REVERSE_OUTPUT_COMPARE := 0
      INDICATOR_DATA_PIN := false
      lit := false
      forwardTarget := u8 cfg.GUIDE_SPEED
      counter := 0
      indicatorCounter := 0
      enableCounter := 0
      toggleCalls := 0 }

/-- The state after `n` complete iterations of the main loop. -/
def mainLoop (cfg : Config) (n : Nat) : State := (loopBody cfg)^[n] (startup cfg)

/-- The value of the local `enable` computed in loop iteration `n`
(`n = 0` for the first iteration). -/
def enableAt (cfg : Config) (n : Nat) : Bool :=
  (enablePart cfg (indicatorPart cfg (mainLoop cfg n))).1

/-! ## Derived notions used by the statements -/

/-- One ramp step on an 8-bit level: `level += acceleration(level, target, maxStep)`. -/
def rampStep (current target maxStep : Nat) : Nat :=
  addAssign8 current (acceleration current target maxStep)

/-- A call of one of the two motor update functions. -/
inductive MotorCall where
  | motor1 (forwardTarget reverseTarget acceleration : Nat)
  | motor2 (forwardTarget reverseTarget acceleration : Nat)
  deriving DecidableEq, Repr

/-- Executes one call. -/
def MotorCall.run : MotorCall → State → State
  | .motor1 f r a, s => updateMotor1Speed f r a s
  | .motor2 f r a, s => updateMotor2Speed f r a s

/-- Executes a sequence of calls, first call first. -/
def runCalls (calls : List MotorCall) (s : State) : State :=
  calls.foldl (fun s c => c.run s) s

/-- The two motors. -/
inductive Motor where
  | motor1
  | motor2
  deriving DecidableEq, Repr

/-- The (forward, reverse) output-compare levels of a motor. -/
def levels : Motor → State → Nat × Nat
  | .motor1, s => (s.MOTOR_1_FORWARD_OUTPUT_COMPARE, s.MOTOR_1_REVERSE_OUTPUT_COMPARE)
  | .motor2, s => (s.MOTOR_2_FORWARD_OUTPUT_COMPARE, s.MOTOR_2_REVERSE_OUTPUT_COMPARE)

/-- A state with both motors idle: all four levels are zero. -/
def idleState : State :=
  { MOTOR_1_FORWARD_OUTPUT_COMPARE := 0
    MOTOR_1_REVERSE_OUTPUT_COMPARE := 0
    MOTOR_2_FORWARD_OUTPUT_COMPARE := 0
    MOTOR_2_REVERSE_OUTPUT_COMPARE := 0
    INDICATOR_DATA_PIN := false
    lit := false
    forwardTarget := 0
    counter := 0
    indicatorCounter := 0
    enableCounter := 0
    toggleCalls := 0 }

/-! ## Single-direction invariant -/

/-- The forward and reverse levels of motor 1 are not both nonzero. -/
def singleDirection1 (s : State) : Prop :=
  ¬ (s.MOTOR_1_FORWARD_OUTPUT_COMPARE ≠ 0 ∧ s.MOTOR_1_REVERSE_OUTPUT_COMPARE ≠ 0)

/-- The forward and reverse levels of motor 2 are not both nonzero. -/
def singleDirection2 (s : State) : Prop :=
  ¬ (s.MOTOR_2_FORWARD_OUTPUT_COMPARE ≠ 0 ∧ s.MOTOR_2_REVERSE_OUTPUT_COMPARE ≠ 0)

/-- The forward and reverse levels of the given motor are not both nonzero. -/
def singleDirection (m : Motor) (s : State) : Prop :=
  ¬ ((levels m s).1 ≠ 0 ∧ (levels m s).2 ≠ 0)

instance (s : State) : Decidable (singleDirection1 s) := by
  unfold singleDirection1; infer_instance

instance (s : State) : Decidable (singleDirection2 s) := by
  unfold singleDirection2; infer_instance

/-! ## Ramp step: statements -/

/-- The mathematical value `current + acceleration(current, target, maxStep)`. -/
def nextLevel (current target maxStep : Nat) : Int :=
  (current : Int) + acceleration current target maxStep

/-- The bounded-step property as the specification words it: the next level lies
between current and target, and differs from current by at most `maxStep`. -/
def boundedStep (current target maxStep : Nat) : Prop :=
  min (current : Int) target ≤ nextLevel current target maxStep ∧
  nextLevel current target maxStep ≤ max (current : Int) target ∧
  (nextLevel current target maxStep - current).natAbs ≤ maxStep

instance (current target maxStep : Nat) : Decidable (boundedStep current target maxStep) := by
  unfold boundedStep; infer_instance

/-- The level after `n` ramp steps with `target` and `maxStep` held constant. -/
def rampIterate (target maxStep : Nat) (n : Nat) (current : Nat) : Nat :=
  (fun level => rampStep level target maxStep)^[n] current

/-- The number of calls the specification gives for convergence:
`ceil(|target - current| / maxStep)`. -/
def rampCalls (current target maxStep : Nat) : Nat :=
  (((target : Int) - current).natAbs + maxStep - 1) / maxStep

/-- The per-motor update as the specification words it: both checks are made
on the levels `(f, r)` held before the call. -/
def preUpdateModel (forwardTarget reverseTarget a : Nat) (f r : Nat) : Nat × Nat :=
  (if r = 0 then rampStep f forwardTarget a else f,
   if f = 0 then rampStep r reverseTarget a else r)

/-- The per-motor update with the second check made on the forward level
already written by the first branch. -/
def sequentialModel (forwardTarget reverseTarget a : Nat) (f r : Nat) : Nat × Nat :=
  let newF := if r = 0 then rampStep f forwardTarget a else f
  (newF, if newF = 0 then rampStep r reverseTarget a else r)

/-! ## Duty cycles: statements -/

/-- The guide pulse phase is active: the static `forwardTarget` of `controlGuide`
is nonzero. -/
def pulseActive (s : State) : Bool := s.forwardTarget != 0

/-- The state after `n` calls of `controlGuide(enable)` from the startup state,
with `enable` held constant. -/
def guideCalls (cfg : Config) (enable : Bool) (n : Nat) : State :=
  (controlGuide cfg enable)^[n] (startup cfg)

/-- The number of `toggleIndicator` invocations made by the `len` loop iterations
`start, start + 1, ..., start + len - 1`. -/
def togglesIn (cfg : Config) (start len : Nat) : Nat :=
  (mainLoop cfg (start + len)).toggleCalls - (mainLoop cfg start).toggleCalls

/-- The shipped configuration with the guide periods replaced. -/
def withGuidePeriods (cfg : Config) (onPeriod offPeriod : Nat) : Config :=
  { cfg with GUIDE_ON_PERIOD := onPeriod, GUIDE_OFF_PERIOD := offPeriod }

/-- The loop-carried data of `main` outside `controlSpool` and `controlGuide`:
`indicatorCounter`, `enableCounter` and the count of `toggleIndicator` calls. -/
def loopCounters (s : State) : Nat × Nat × Nat :=
  (s.indicatorCounter, s.enableCounter, s.toggleCalls)

/-- The update function of the given motor: `updateMotor1Speed` for motor 1,
`updateMotor2Speed` for motor 2. -/
def updateMotorSpeed : Motor → Nat → Nat → Nat → State → State
  | .motor1 => updateMotor1Speed
  | .motor2 => updateMotor2Speed

/-- A state in which motor 1 drives both directions at once, as only outside
interference can produce: levels (3, 4), motor 2 idle. -/
def illegalState : State :=
  { idleState with MOTOR_1_FORWARD_OUTPUT_COMPARE := 3, MOTOR_1_REVERSE_OUTPUT_COMPARE := 4 }

/-- The state after a sequence of `controlGuide` calls, one per entry of
`enables` (the `enable` argument of each call, first call first). -/
def guideRun (cfg : Config) (enables : List Bool) (s : State) : State :=
  enables.foldl (fun s enable => controlGuide cfg enable s) s

/-! # Theorems -/

/-! ## Ramp step: proofs -/

theorem acceleration_eq (current target maxStep : Nat) :
    acceleration current target maxStep =
      if (target : Int) - current ≤ maxStep then (target : Int) - current else maxStep := by
  unfold acceleration
  dsimp only
  split_ifs <;> omega

theorem nextLevel_eq_min (current target maxStep : Nat) :
    nextLevel current target maxStep = min (target : Int) ((current : Int) + maxStep) := by
  unfold nextLevel
  rw [acceleration_eq]
  split_ifs <;> omega

theorem rampStep_eq_min (current target maxStep : Nat) (ht : target < 256) :
    rampStep current target maxStep = min target (current + maxStep) := by
  unfold rampStep addAssign8
  rw [acceleration_eq]
  split_ifs <;> omega

theorem rampIterate_succ (target maxStep n current : Nat) :
    rampIterate target maxStep (n + 1) current =
      rampStep (rampIterate target maxStep n current) target maxStep := by
  unfold rampIterate
  rw [Function.iterate_succ_apply']

theorem rampIterate_eq_min (target maxStep current : Nat) (ht : target < 256) (n : Nat) :
    rampIterate target maxStep (n + 1) current = min target (current + (n + 1) * maxStep) := by
  induction n with
  | zero =>
    rw [rampIterate_succ]
    simp only [rampIterate, Function.iterate_zero, id_eq]
    rw [rampStep_eq_min _ _ _ ht]
    simp
  | succ k ih =>
    rw [rampIterate_succ, ih, rampStep_eq_min _ _ _ ht]
    have : (k + 1 + 1) * maxStep = (k + 1) * maxStep + maxStep := by ring
    omega

theorem le_mul_of_rampCalls_le (d m n : Nat) (hm : 0 < m) (hn : (d + m - 1) / m ≤ n) :
    d ≤ n * m := by
  by_contra hlt
  have h1 : (n + 1) * m ≤ d + m - 1 := by
    have : (n + 1) * m = n * m + m := by ring
    omega
  have h2 : n + 1 ≤ (d + m - 1) / m := (Nat.le_div_iff_mul_le hm).2 h1
  omega



/-! ## Single-direction invariant: proofs -/

theorem updateMotor1Speed_singleDirection1 (f r a : Nat) (s : State)
    (h : singleDirection1 s) : singleDirection1 (updateMotor1Speed f r a s) := by
  unfold singleDirection1 at h ⊢
  unfold updateMotor1Speed
  by_cases hr : s.MOTOR_1_REVERSE_OUTPUT_COMPARE = 0
  · simp only [hr, if_true]
    split <;> simp_all
  · have hf : s.MOTOR_1_FORWARD_OUTPUT_COMPARE = 0 := by
      by_contra hf
      exact h ⟨hf, hr⟩
    simp [hr, hf]

theorem updateMotor2Speed_singleDirection2 (f r a : Nat) (s : State)
    (h : singleDirection2 s) : singleDirection2 (updateMotor2Speed f r a s) := by
  unfold singleDirection2 at h ⊢
  unfold updateMotor2Speed
  by_cases hr : s.MOTOR_2_REVERSE_OUTPUT_COMPARE = 0
  · simp only [hr, if_true]
    split <;> simp_all
  · have hf : s.MOTOR_2_FORWARD_OUTPUT_COMPARE = 0 := by
      by_contra hf
      exact h ⟨hf, hr⟩
    simp [hr, hf]

theorem updateMotor1Speed_motor2 (f r a : Nat) (s : State) :
    (updateMotor1Speed f r a s).MOTOR_2_FORWARD_OUTPUT_COMPARE = s.MOTOR_2_FORWARD_OUTPUT_COMPARE ∧
    (updateMotor1Speed f r a s).MOTOR_2_REVERSE_OUTPUT_COMPARE = s.MOTOR_2_REVERSE_OUTPUT_COMPARE := by
  unfold updateMotor1Speed
  dsimp only
  constructor <;> (split_ifs <;> rfl)

theorem updateMotor2Speed_motor1 (f r a : Nat) (s : State) :
    (updateMotor2Speed f r a s).MOTOR_1_FORWARD_OUTPUT_COMPARE = s.MOTOR_1_FORWARD_OUTPUT_COMPARE ∧
    (updateMotor2Speed f r a s).MOTOR_1_REVERSE_OUTPUT_COMPARE = s.MOTOR_1_REVERSE_OUTPUT_COMPARE := by
  unfold updateMotor2Speed
  dsimp only
  constructor <;> (split_ifs <;> rfl)

theorem run_singleDirection1 (c : MotorCall) (s : State) (h : singleDirection1 s) :
    singleDirection1 (c.run s) := by
  cases c with
  | motor1 f r a => exact updateMotor1Speed_singleDirection1 f r a s h
  | motor2 f r a =>
    unfold singleDirection1 at h ⊢
    simpa [MotorCall.run, (updateMotor2Speed_motor1 f r a s).1,
      (updateMotor2Speed_motor1 f r a s).2] using h

theorem run_singleDirection2 (c : MotorCall) (s : State) (h : singleDirection2 s) :
    singleDirection2 (c.run s) := by
  cases c with
  | motor1 f r a =>
    unfold singleDirection2 at h ⊢
    simpa [MotorCall.run, (updateMotor1Speed_motor2 f r a s).1,
      (updateMotor1Speed_motor2 f r a s).2] using h
  | motor2 f r a => exact updateMotor2Speed_singleDirection2 f r a s h

theorem runCalls_singleDirection1 (calls : List MotorCall) :
    ∀ s : State, singleDirection1 s → singleDirection1 (runCalls calls s) := by
  induction calls with
  | nil => intro s h; simpa [runCalls] using h
  | cons c cs ih =>
    intro s h
    have := ih (c.run s) (run_singleDirection1 c s h)
    simpa [runCalls] using this

theorem runCalls_singleDirection2 (calls : List MotorCall) :
    ∀ s : State, singleDirection2 s → singleDirection2 (runCalls calls s) := by
  induction calls with
  | nil => intro s h; simpa [runCalls] using h
  | cons c cs ih =>
    intro s h
    have := ih (c.run s) (run_singleDirection2 c s h)
    simpa [runCalls] using this

theorem singleDirection_of_idle (m : Motor) (s : State) (h : levels m s = (0, 0)) :
    singleDirection m s := by
  cases m <;>
    simp only [levels, Prod.mk.injEq] at h <;>
    simp [singleDirection, levels, h.1]

/-- C1: starting from a state in which a motor is idle, (forward, reverse) = (0, 0),
any finite sequence of `updateMotor1Speed` / `updateMotor2Speed` calls, whatever
their arguments (in particular all 8-bit ones), leaves that motor with forward and
reverse levels not both nonzero. -/
theorem single_direction_invariant (m : Motor) (s : State) (calls : List MotorCall)
    (hidle : levels m s = (0, 0)) :
    ¬ ((levels m (runCalls calls s)).1 ≠ 0 ∧ (levels m (runCalls calls s)).2 ≠ 0) := by
  have h0 := singleDirection_of_idle m s hidle
  cases m with
  | motor1 => exact runCalls_singleDirection1 calls s h0
  | motor2 => exact runCalls_singleDirection2 calls s h0

/-- Witness for C1: both directions requested at once, then a reversal. -/
theorem single_direction_invariant_witness :
    levels Motor.motor1 idleState = (0, 0) ∧
    ¬ ((levels Motor.motor1 (runCalls
          [MotorCall.motor1 5 7 10, MotorCall.motor2 9 9 9, MotorCall.motor1 0 7 10]
          idleState)).1 ≠ 0 ∧
       (levels Motor.motor1 (runCalls
          [MotorCall.motor1 5 7 10, MotorCall.motor2 9 9 9, MotorCall.motor1 0 7 10]
          idleState)).2 ≠ 0) :=
  ⟨rfl,
    single_direction_invariant Motor.motor1 idleState
      [MotorCall.motor1 5 7 10, MotorCall.motor2 9 9 9, MotorCall.motor1 0 7 10] rfl⟩

/-! ## Ramp step: claims -/

/-- C2 (counterexample): from level 200 with target 0 and maxStep 10 the step is
-200 and the next level is 0, so the level moves by 200 > 10: the bounded-step
property as stated fails. -/
theorem bounded_step_counterexample :
    acceleration 200 0 10 = -200 ∧ rampStep 200 0 10 = 0 ∧ ¬ boundedStep 200 0 10 := by
  decide

/-- C2 (amended): for all 8-bit current, target and maxStep, the next level
`current + acceleration(current, target, maxStep)` lies between current and target,
exceeds current by at most maxStep, differs from current by at most maxStep whenever
target >= current, and is the value the 8-bit register holds after `+=`. -/
theorem bounded_step_upward (current target maxStep : Nat)
    (_hc : current < 256) (ht : target < 256) (hm : maxStep < 256) :
    min (current : Int) target ≤ nextLevel current target maxStep ∧
    nextLevel current target maxStep ≤ max (current : Int) target ∧
    nextLevel current target maxStep - current ≤ maxStep ∧
    (current ≤ target → (nextLevel current target maxStep - current).natAbs ≤ maxStep) ∧
    (rampStep current target maxStep : Int) = nextLevel current target maxStep := by
  have h1 := nextLevel_eq_min current target maxStep
  have h2 := rampStep_eq_min current target maxStep ht
  refine ⟨by omega, by omega, by omega, fun _ => by omega, by omega⟩

/-- Witness for C2 (amended): an upward step clamped at maxStep. -/
theorem bounded_step_upward_witness :
    min ((3 : Nat) : Int) (200 : Nat) ≤ nextLevel 3 200 10 ∧
    nextLevel 3 200 10 ≤ max ((3 : Nat) : Int) (200 : Nat) ∧
    nextLevel 3 200 10 - (3 : Nat) ≤ (10 : Nat) ∧
    (3 ≤ 200 → (nextLevel 3 200 10 - (3 : Nat)).natAbs ≤ 10) ∧
    (rampStep 3 200 10 : Int) = nextLevel 3 200 10 :=
  bounded_step_upward 3 200 10 (by decide) (by decide) (by decide)

/-- C3: for all 8-bit current, target and maxStep with maxStep > 0, after
`ceil(|target - current| / maxStep)` ramp steps with the target held constant the
level equals the target, and it equals the target after every larger number of
steps as well. -/
theorem ramp_converges (current target maxStep : Nat)
    (hc : current < 256) (ht : target < 256) (_hm : maxStep < 256) (hpos : 0 < maxStep)
    (n : Nat) (hn : rampCalls current target maxStep ≤ n) :
    rampIterate target maxStep n current = target := by
  unfold rampCalls at hn
  cases n with
  | zero =>
    have hd : ((target : Int) - current).natAbs = 0 := by
      by_contra hne
      have : 1 ≤ (((target : Int) - current).natAbs + maxStep - 1) / maxStep :=
        (Nat.le_div_iff_mul_le hpos).2 (by omega)
      omega
    simp only [rampIterate, Function.iterate_zero, id_eq]
    omega
  | succ k =>
    rw [rampIterate_eq_min _ _ _ ht]
    have hle := le_mul_of_rampCalls_le _ _ _ hpos hn
    omega

/-- Witness for C3: from 3 to 200 in steps of 10 takes 20 calls. -/
theorem ramp_converges_witness :
    rampCalls 3 200 10 = 20 ∧ rampIterate 200 10 20 3 = 200 :=
  ⟨by decide,
    ramp_converges 3 200 10 (by decide) (by decide) (by decide) (by decide) 20 (by decide)⟩

/-- C9: for all 8-bit current, target and maxStep, `acceleration` returns the
signed difference target - current when that difference is at most maxStep and
maxStep otherwise, and the level written by the 8-bit `+=` is current plus that
value. -/
theorem acceleration_upper_clamp (current target maxStep : Nat)
    (_hc : current < 256) (ht : target < 256) (_hm : maxStep < 256) :
    acceleration current target maxStep =
      (if (target : Int) - current ≤ maxStep then (target : Int) - current else maxStep) ∧
    (rampStep current target maxStep : Int) =
      (current : Int) + acceleration current target maxStep := by
  refine ⟨acceleration_eq current target maxStep, ?_⟩
  have h1 := nextLevel_eq_min current target maxStep
  have h2 := rampStep_eq_min current target maxStep ht
  unfold nextLevel at h1
  omega

/-- Witness for C9: a downward difference is returned unclamped. -/
theorem acceleration_upper_clamp_witness :
    acceleration 200 7 10 =
      (if ((7 : Nat) : Int) - (200 : Nat) ≤ (10 : Nat) then ((7 : Nat) : Int) - (200 : Nat)
        else (10 : Nat)) ∧
    (rampStep 200 7 10 : Int) = ((200 : Nat) : Int) + acceleration 200 7 10 :=
  acceleration_upper_clamp 200 7 10 (by decide) (by decide) (by decide)

/-! ## Per-motor update: claims -/

/-- C10 (counterexample): from an idle motor 1 with forwardTarget 5, reverseTarget 7
and acceleration 10 the code yields levels (5, 0), while the model that decides both
branches from the pre-update levels yields (5, 7). -/
theorem pre_update_model_counterexample :
    levels Motor.motor1 (updateMotor1Speed 5 7 10 idleState) = (5, 0) ∧
    preUpdateModel 5 7 10 0 0 = (5, 7) ∧
    levels Motor.motor1 (updateMotor1Speed 5 7 10 idleState) ≠
      preUpdateModel 5 7 10
        (levels Motor.motor1 idleState).1 (levels Motor.motor1 idleState).2 := by
  decide

/-- C10 (amended): one call of `updateMotor1Speed` decides the forward branch from
the pre-update reverse level and the reverse branch from the forward level as just
updated: new_f = (if r = 0 then ramp(f, forwardTarget, a) else f) and
new_r = (if new_f = 0 then ramp(r, reverseTarget, a) else r). -/
theorem updateMotor1Speed_sequential (forwardTarget reverseTarget a : Nat) (s : State) :
    levels Motor.motor1 (updateMotor1Speed forwardTarget reverseTarget a s) =
      sequentialModel forwardTarget reverseTarget a
        s.MOTOR_1_FORWARD_OUTPUT_COMPARE s.MOTOR_1_REVERSE_OUTPUT_COMPARE := by
  unfold updateMotor1Speed sequentialModel levels rampStep
  dsimp only
  split_ifs <;> simp_all

/-! ## Main loop: frame lemmas -/

theorem updateMotor1Speed_loopCounters (f r a : Nat) (s : State) :
    loopCounters (updateMotor1Speed f r a s) = loopCounters s := by
  unfold updateMotor1Speed loopCounters
  dsimp only
  split_ifs <;> rfl

theorem updateMotor2Speed_loopCounters (f r a : Nat) (s : State) :
    loopCounters (updateMotor2Speed f r a s) = loopCounters s := by
  unfold updateMotor2Speed loopCounters
  dsimp only
  split_ifs <;> rfl

theorem controlSpool_loopCounters (cfg : Config) (enable : Bool) (s : State) :
    loopCounters (controlSpool cfg enable s) = loopCounters s := by
  unfold controlSpool
  exact updateMotor1Speed_loopCounters _ _ _ s

theorem guideCycle_loopCounters (cfg : Config) (s : State) :
    loopCounters (guideCycle cfg s) = loopCounters s := by
  unfold guideCycle loopCounters
  dsimp only
  split_ifs <;> rfl

theorem controlGuide_loopCounters (cfg : Config) (enable : Bool) (s : State) :
    loopCounters (controlGuide cfg enable s) = loopCounters s := by
  unfold controlGuide
  dsimp only
  rw [updateMotor2Speed_loopCounters, guideCycle_loopCounters]

theorem loopBody_loopCounters (cfg : Config) (s : State) :
    loopCounters (loopBody cfg s) = loopCounters (enablePart cfg (indicatorPart cfg s)).2 := by
  unfold loopBody
  dsimp only
  rw [controlGuide_loopCounters, controlSpool_loopCounters]

theorem mainLoop_succ (cfg : Config) (n : Nat) :
    mainLoop cfg (n + 1) = loopBody cfg (mainLoop cfg n) := by
  unfold mainLoop
  rw [Function.iterate_succ_apply']

theorem indicatorPart_enableCounter (cfg : Config) (s : State) :
    (indicatorPart cfg s).enableCounter = s.enableCounter := by
  unfold indicatorPart toggleIndicator
  dsimp only
  split_ifs <;> rfl

theorem enablePart_indicator (cfg : Config) (s : State) :
    (enablePart cfg s).2.indicatorCounter = s.indicatorCounter ∧
    (enablePart cfg s).2.toggleCalls = s.toggleCalls := by
  unfold enablePart
  split_ifs <;> exact ⟨rfl, rfl⟩

/-! ## Enable gate: closed form -/

theorem succ_mod_cases (n p : Nat) (hp : 0 < p) :
    (n + 1) % p = if n % p + 1 = p then 0 else n % p + 1 := by
  have hdm := Nat.div_add_mod n p
  have hlt := Nat.mod_lt n hp
  split_ifs with h
  · have : n + 1 = p * (n / p + 1) := by
      have : p * (n / p + 1) = p * (n / p) + p := by ring
      omega
    rw [this, Nat.mul_mod_right]
  · have : n + 1 = p * (n / p) + (n % p + 1) := by omega
    rw [this, Nat.mul_add_mod, Nat.mod_eq_of_lt (by omega)]

theorem loopBody_enableCounter (cfg : Config) (s : State) :
    (loopBody cfg s).enableCounter =
      if s.enableCounter < cfg.ENABLE_ON_PERIOD then u16 (s.enableCounter + 1)
      else if s.enableCounter = cfg.ENABLE_ON_PERIOD + cfg.ENABLE_OFF_PERIOD then 0
      else u16 (s.enableCounter + 1) := by
  have h := congrArg (fun t => t.2.1) (loopBody_loopCounters cfg s)
  simp only [loopCounters] at h
  rw [h]
  unfold enablePart
  rw [indicatorPart_enableCounter]
  split_ifs <;> rfl

theorem mainLoop_enableCounter (cfg : Config)
    (h16 : cfg.ENABLE_ON_PERIOD + cfg.ENABLE_OFF_PERIOD ≤ 65535) (n : Nat) :
    (mainLoop cfg n).enableCounter =
      n % (cfg.ENABLE_ON_PERIOD + cfg.ENABLE_OFF_PERIOD + 1) := by
  induction n with
  | zero => simp [mainLoop, startup, initializeMotors]
  | succ k ih =>
    rw [mainLoop_succ, loopBody_enableCounter, ih, succ_mod_cases _ _ (by omega)]
    have hlt := Nat.mod_lt k
      (show 0 < cfg.ENABLE_ON_PERIOD + cfg.ENABLE_OFF_PERIOD + 1 by omega)
    unfold u16
    split_ifs <;> omega

theorem enableAt_eq (cfg : Config)
    (h16 : cfg.ENABLE_ON_PERIOD + cfg.ENABLE_OFF_PERIOD ≤ 65535) (n : Nat) :
    enableAt cfg n =
      decide (n % (cfg.ENABLE_ON_PERIOD + cfg.ENABLE_OFF_PERIOD + 1) < cfg.ENABLE_ON_PERIOD) := by
  unfold enableAt enablePart
  rw [indicatorPart_enableCounter, mainLoop_enableCounter cfg h16]
  split_ifs with h1 h2 <;> simp [h1]

/-! ## Indicator: closed form -/

theorem loopBody_indicator (cfg : Config) (s : State) :
    (loopBody cfg s).indicatorCounter =
      (if s.indicatorCounter = cfg.INDICATOR_HALF_PERIOD then s.indicatorCounter
       else u16 (s.indicatorCounter + 1)) ∧
    (loopBody cfg s).toggleCalls =
      (if s.indicatorCounter = cfg.INDICATOR_HALF_PERIOD then s.toggleCalls + 1
       else s.toggleCalls) := by
  have h := loopBody_loopCounters cfg s
  simp only [loopCounters, Prod.mk.injEq] at h
  rw [h.1, h.2.2, (enablePart_indicator cfg _).1, (enablePart_indicator cfg _).2]
  unfold indicatorPart toggleIndicator
  dsimp only
  split_ifs <;> exact ⟨rfl, rfl⟩

theorem mainLoop_indicator (cfg : Config) (h16 : cfg.INDICATOR_HALF_PERIOD ≤ 65535) (n : Nat) :
    (mainLoop cfg n).indicatorCounter = min n cfg.INDICATOR_HALF_PERIOD ∧
    (mainLoop cfg n).toggleCalls = n - cfg.INDICATOR_HALF_PERIOD := by
  induction n with
  | zero => simp [mainLoop, startup, initializeMotors]
  | succ k ih =>
    rw [mainLoop_succ, (loopBody_indicator cfg _).1, (loopBody_indicator cfg _).2, ih.1, ih.2]
    unfold u16
    constructor <;> split_ifs <;> omega

/-! ## Guide motor under a constant enable -/

theorem guideCycle_levels2 (cfg : Config) (s : State) :
    levels Motor.motor2 (guideCycle cfg s) = levels Motor.motor2 s := by
  unfold guideCycle levels
  dsimp only
  split_ifs <;> rfl

theorem updateMotor2Speed_sequential (forwardTarget reverseTarget a : Nat) (s : State) :
    levels Motor.motor2 (updateMotor2Speed forwardTarget reverseTarget a s) =
      sequentialModel forwardTarget reverseTarget a
        s.MOTOR_2_FORWARD_OUTPUT_COMPARE s.MOTOR_2_REVERSE_OUTPUT_COMPARE := by
  unfold updateMotor2Speed sequentialModel levels rampStep
  dsimp only
  split_ifs <;> simp_all

theorem controlGuide_true_levels2 (s : State) (h : levels Motor.motor2 s = (0x80, 0)) :
    levels Motor.motor2 (controlGuide config true s) = (0x80, 0) := by
  have hc := guideCycle_levels2 config s
  rw [h] at hc
  simp only [levels, Prod.mk.injEq] at hc
  unfold controlGuide
  dsimp only
  rw [updateMotor2Speed_sequential, hc.1, hc.2]
  decide

theorem guideCalls_succ (cfg : Config) (enable : Bool) (n : Nat) :
    guideCalls cfg enable (n + 1) = controlGuide cfg enable (guideCalls cfg enable n) := by
  unfold guideCalls
  rw [Function.iterate_succ_apply']

theorem guideCalls_true_levels2 (k : Nat) :
    levels Motor.motor2 (guideCalls config true k) = (0x80, 0) := by
  induction k with
  | zero => decide
  | succ n ih => rw [guideCalls_succ]; exact controlGuide_true_levels2 _ ih

/-! ## Duty cycles and motor control: claims -/

set_option maxRecDepth 100000

/-- C4 (evaluation at the failing input): with ENABLE_ON_PERIOD = 1200 and
ENABLE_OFF_PERIOD = 6000 the enable flag of loop iteration 7200 is false, although
7200 mod 7200 = 0 < 1200; the flag is true again only from iteration 7201 on, so
the off phase lasts 6001 iterations and the cycle 7201. -/
theorem enable_gate_iteration_7200 :
    config.ENABLE_ON_PERIOD = 1200 ∧ config.ENABLE_OFF_PERIOD = 6000 ∧
    enableAt config 7199 = false ∧ enableAt config 7200 = false ∧
    enableAt config 7201 = true ∧ 7200 % 7200 < 1200 := by
  have h16 : config.ENABLE_ON_PERIOD + config.ENABLE_OFF_PERIOD ≤ 65535 := by decide
  refine ⟨by decide, by decide, ?_, ?_, ?_, by decide⟩ <;>
    (rw [enableAt_eq config h16]; decide)

/-- C5 (evaluation at the failing input): with GUIDE_ON_PERIOD = 2 and
GUIDE_OFF_PERIOD = 3 the pulse phase observed after 0, 1, ..., 9 calls of
`controlGuide` is true, true, false, false repeating with period 4, whatever the
enable input: the off phase lasts 2 calls, not 3, and the sequence differs from
true, true, false, false, false repeating, also when read from the first call on.
With the shipped periods 10 and 30 the pulse is active again after 39 calls. -/
theorem guide_pulse_on2_off3 :
    (List.range 10).map (fun k => pulseActive (guideCalls (withGuidePeriods config 2 3) true k))
      = [true, true, false, false, true, true, false, false, true, true] ∧
    (List.range 10).map (fun k => pulseActive (guideCalls (withGuidePeriods config 2 3) false k))
      = [true, true, false, false, true, true, false, false, true, true] ∧
    pulseActive (guideCalls config true 38) = false ∧
    pulseActive (guideCalls config true 39) = true := by
  decide

/-- C6 (evaluation at the failing input): with INDICATOR_HALF_PERIOD = 20 the loop
iterations 0..39 invoke `toggleIndicator` 20 times, and every window of 40
consecutive iterations that starts at iteration 20 or later invokes it 40 times,
once per iteration. -/
theorem indicator_toggles_every_iteration :
    config.INDICATOR_HALF_PERIOD = 20 ∧ togglesIn config 0 40 = 20 ∧
    ∀ start : Nat, togglesIn config (20 + start) 40 = 40 := by
  have h16 : config.INDICATOR_HALF_PERIOD ≤ 65535 := by decide
  have hH : config.INDICATOR_HALF_PERIOD = 20 := by decide
  refine ⟨hH, ?_, fun start => ?_⟩
  · unfold togglesIn
    rw [(mainLoop_indicator config h16 _).2, (mainLoop_indicator config h16 _).2, hH]
  · unfold togglesIn
    rw [(mainLoop_indicator config h16 _).2, (mainLoop_indicator config h16 _).2, hH]
    omega

/-- C7 (evaluation at the failing input): with enable held true and the shipped
GUIDE_ON_PERIOD = 10, GUIDE_OFF_PERIOD = 30, GUIDE_SPEED = GUIDE_ACCELERATION = 0x80,
after 11 calls of `controlGuide` the pulse phase is off, yet the forward target
passed to the guide motor update is 0x80 and the guide forward level is 0x80 after
every number of calls, in particular after calls 11 through 40. -/
theorem guide_ignores_pulse_phase :
    pulseActive (guideCalls config true 11) = false ∧
    adjustedTarget config true = 0x80 ∧
    ∀ k : Nat, levels Motor.motor2 (guideCalls config true k) = (0x80, 0) := by
  refine ⟨by decide, by decide, guideCalls_true_levels2⟩

/-- C8 (evaluation at the failing input): with SPOOL_SPEED = SPOOL_ACCELERATION = 0x40
a single call `controlSpool(true)` from an idle motor leaves the spool forward level
at 0x80, the value of GUIDE_SPEED, not at 0x40. -/
theorem controlSpool_uses_guide_constants :
    config.SPOOL_SPEED = 0x40 ∧ config.SPOOL_ACCELERATION = 0x40 ∧
    levels Motor.motor1 idleState = (0, 0) ∧
    levels Motor.motor1 (controlSpool config true idleState) = (0x80, 0) := by
  decide

/-! ## Per-motor update and ramp step: further claims -/

/-- C11: if both the forward and the reverse level of a motor are nonzero, one call
of that motor's update function (`updateMotor1Speed` or `updateMotor2Speed`) with
any targets and any acceleration changes nothing: both levels, and the whole state,
stay as they were. -/
theorem update_deadlock (m : Motor) (forwardTarget reverseTarget a : Nat) (s : State)
    (hf : (levels m s).1 ≠ 0) (hr : (levels m s).2 ≠ 0) :
    updateMotorSpeed m forwardTarget reverseTarget a s = s ∧
    levels m (updateMotorSpeed m forwardTarget reverseTarget a s) = levels m s := by
  have key : updateMotorSpeed m forwardTarget reverseTarget a s = s := by
    cases m with
    | motor1 =>
      simp only [levels] at hf hr
      simp [updateMotorSpeed, updateMotor1Speed, hf, hr]
    | motor2 =>
      simp only [levels] at hf hr
      simp [updateMotorSpeed, updateMotor2Speed, hf, hr]
  exact ⟨key, by rw [key]⟩

/-- Witness for C11: motor 1 at levels (3, 4), targets 200 and 0, acceleration 50. -/
theorem update_deadlock_witness :
    (levels Motor.motor1 illegalState).1 ≠ 0 ∧ (levels Motor.motor1 illegalState).2 ≠ 0 ∧
    updateMotorSpeed Motor.motor1 200 0 50 illegalState = illegalState ∧
    levels Motor.motor1 (updateMotorSpeed Motor.motor1 200 0 50 illegalState) =
      levels Motor.motor1 illegalState :=
  ⟨by decide, by decide,
    update_deadlock Motor.motor1 200 0 50 illegalState (by decide) (by decide)⟩

/-- C12: for all 8-bit current, target and maxStep with target < current, one ramp
step yields exactly the target, whatever maxStep is (zero included): both the
mathematical value current + acceleration(current, target, maxStep) and the level
stored by the 8-bit `+=` equal target. -/
theorem deceleration_unclamped (current target maxStep : Nat)
    (_hc : current < 256) (ht : target < 256) (_hm : maxStep < 256) (hlt : target < current) :
    nextLevel current target maxStep = target ∧ rampStep current target maxStep = target := by
  have h1 := nextLevel_eq_min current target maxStep
  have h2 := rampStep_eq_min current target maxStep ht
  constructor <;> omega

/-- Witness for C12: from 255 to 0 with maxStep 0. -/
theorem deceleration_unclamped_witness :
    nextLevel 255 0 0 = ((0 : Nat) : Int) ∧ rampStep 255 0 0 = 0 :=
  deceleration_unclamped 255 0 0 (by decide) (by decide) (by decide) (by decide)

/-- C13: for all 8-bit current, target and maxStep, the mathematical value
current + acceleration(current, target, maxStep) lies in 0..255, indeed between
min(current, target) and max(current, target), so the 8-bit `+=` of the update
functions stores exactly that value: no reduction modulo 256 takes place. -/
theorem ramp_no_wraparound (current target maxStep : Nat)
    (hc : current < 256) (ht : target < 256) (_hm : maxStep < 256) :
    0 ≤ nextLevel current target maxStep ∧ nextLevel current target maxStep ≤ 255 ∧
    min (current : Int) target ≤ nextLevel current target maxStep ∧
    nextLevel current target maxStep ≤ max (current : Int) target ∧
    (addAssign8 current (acceleration current target maxStep) : Int) =
      (current : Int) + acceleration current target maxStep := by
  have h1 := nextLevel_eq_min current target maxStep
  have h2 := rampStep_eq_min current target maxStep ht
  unfold rampStep at h2
  have h3 : nextLevel current target maxStep =
      (current : Int) + acceleration current target maxStep := rfl
  refine ⟨by omega, by omega, by omega, by omega, by omega⟩

/-- Witness for C13: the largest upward request, 0 to 255 with maxStep 255. -/
theorem ramp_no_wraparound_witness :
    0 ≤ nextLevel 0 255 255 ∧ nextLevel 0 255 255 ≤ 255 ∧
    min ((0 : Nat) : Int) (255 : Nat) ≤ nextLevel 0 255 255 ∧
    nextLevel 0 255 255 ≤ max ((0 : Nat) : Int) (255 : Nat) ∧
    (addAssign8 0 (acceleration 0 255 255) : Int) =
      ((0 : Nat) : Int) + acceleration 0 255 255 :=
  ramp_no_wraparound 0 255 255 (by decide) (by decide) (by decide)

/-! ## Indicator and startup: further claims -/

/-- C14 (counterexample): with INDICATOR_HALF_PERIOD = 20 a run of 40 loop
iterations invokes `toggleIndicator` 20 times and a run of 22 iterations twice,
not exactly once; the counter stands at 20 in both. -/
theorem indicator_single_toggle_counterexample :
    (mainLoop config 40).indicatorCounter = 20 ∧ (mainLoop config 40).toggleCalls = 20 ∧
    (mainLoop config 22).indicatorCounter = 20 ∧ (mainLoop config 22).toggleCalls = 2 ∧
    ¬ ((mainLoop config 40).toggleCalls = 1) := by
  have h16 : config.INDICATOR_HALF_PERIOD ≤ 65535 := by decide
  have hH : config.INDICATOR_HALF_PERIOD = 20 := by decide
  have h40 := mainLoop_indicator config h16 40
  have h22 := mainLoop_indicator config h16 22
  rw [hH] at h40 h22
  refine ⟨h40.1, h40.2, h22.1, h22.2, ?_⟩
  rw [h40.2]
  decide

/-- C14 (amended): with the reset written as a comparison, the indicator counter
never resets: after n loop iterations it equals min(n, INDICATOR_HALF_PERIOD), so it
stays at INDICATOR_HALF_PERIOD once reached; `toggleIndicator` is then invoked in
every iteration, n - INDICATOR_HALF_PERIOD times in the first n iterations (none
when n is smaller) and once more in the iteration that follows. -/
theorem indicator_counter_sticks (cfg : Config) (h16 : cfg.INDICATOR_HALF_PERIOD ≤ 65535)
    (n : Nat) :
    (mainLoop cfg n).indicatorCounter = min n cfg.INDICATOR_HALF_PERIOD ∧
    (mainLoop cfg n).toggleCalls = n - cfg.INDICATOR_HALF_PERIOD ∧
    (mainLoop cfg (cfg.INDICATOR_HALF_PERIOD + n)).indicatorCounter =
      cfg.INDICATOR_HALF_PERIOD ∧
    (mainLoop cfg (cfg.INDICATOR_HALF_PERIOD + n + 1)).toggleCalls =
      (mainLoop cfg (cfg.INDICATOR_HALF_PERIOD + n)).toggleCalls + 1 := by
  have h1 := mainLoop_indicator cfg h16 n
  have h2 := mainLoop_indicator cfg h16 (cfg.INDICATOR_HALF_PERIOD + n)
  have h3 := mainLoop_indicator cfg h16 (cfg.INDICATOR_HALF_PERIOD + n + 1)
  refine ⟨h1.1, h1.2, ?_, ?_⟩
  · rw [h2.1]; omega
  · rw [h3.2, h2.2]; omega

/-- Witness for C14 (amended): the shipped configuration after 45 iterations. -/
theorem indicator_counter_sticks_witness :
    (mainLoop config 45).indicatorCounter = min 45 config.INDICATOR_HALF_PERIOD ∧
    (mainLoop config 45).toggleCalls = 45 - config.INDICATOR_HALF_PERIOD ∧
    (mainLoop config (config.INDICATOR_HALF_PERIOD + 45)).indicatorCounter =
      config.INDICATOR_HALF_PERIOD ∧
    (mainLoop config (config.INDICATOR_HALF_PERIOD + 45 + 1)).toggleCalls =
      (mainLoop config (config.INDICATOR_HALF_PERIOD + 45)).toggleCalls + 1 :=
  indicator_counter_sticks config (by decide) 45

/-- C15 (counterexample): with the shipped configuration the state before the first
loop iteration has spool levels (0x40, 0) and guide levels (0x80, 0): the forward
levels are not 0. -/
theorem startup_idle_counterexample :
    levels Motor.motor1 (startup config) = (0x40, 0) ∧
    levels Motor.motor2 (startup config) = (0x80, 0) ∧
    levels Motor.motor1 (startup config) ≠ (0, 0) ∧
    levels Motor.motor2 (startup config) ≠ (0, 0) := by
  decide

/-- C15 (amended): the state established before the first loop iteration has both
loop counters and the guide counter at zero and both reverse levels 0, while
`initializeMotors` sets the forward levels to SPOOL_SPEED (spool) and GUIDE_SPEED
(guide), as 8-bit values: both motors start running forward. -/
theorem startup_state (cfg : Config) :
    (startup cfg).indicatorCounter = 0 ∧ (startup cfg).enableCounter = 0 ∧
    (startup cfg).counter = 0 ∧
    levels Motor.motor1 (startup cfg) = (u8 cfg.SPOOL_SPEED, 0) ∧
    levels Motor.motor2 (startup cfg) = (u8 cfg.GUIDE_SPEED, 0) ∧
    ∀ s : State,
      levels Motor.motor1 (initializeMotors cfg s) = (u8 cfg.SPOOL_SPEED, 0) ∧
      levels Motor.motor2 (initializeMotors cfg s) = (u8 cfg.GUIDE_SPEED, 0) := by
  refine ⟨rfl, rfl, rfl, rfl, rfl, fun s => ⟨rfl, rfl⟩⟩

/-! ## Motor levels along the main loop -/

theorem indicatorPart_levels (cfg : Config) (m : Motor) (s : State) :
    levels m (indicatorPart cfg s) = levels m s := by
  unfold indicatorPart toggleIndicator
  cases m <;> (simp only [levels]; split_ifs <;> rfl)

theorem enablePart_levels (cfg : Config) (m : Motor) (s : State) :
    levels m (enablePart cfg s).2 = levels m s := by
  unfold enablePart
  cases m <;> (simp only [levels]; split_ifs <;> rfl)

theorem guideCycle_levels1 (cfg : Config) (s : State) :
    levels Motor.motor1 (guideCycle cfg s) = levels Motor.motor1 s := by
  unfold guideCycle levels
  dsimp only
  split_ifs <;> rfl

theorem controlGuide_levels1 (cfg : Config) (enable : Bool) (s : State) :
    levels Motor.motor1 (controlGuide cfg enable s) = levels Motor.motor1 s := by
  unfold controlGuide
  dsimp only
  rw [← guideCycle_levels1 cfg s]
  simp only [levels, (updateMotor2Speed_motor1 _ _ _ _).1, (updateMotor2Speed_motor1 _ _ _ _).2]

theorem controlSpool_levels2 (cfg : Config) (enable : Bool) (s : State) :
    levels Motor.motor2 (controlSpool cfg enable s) = levels Motor.motor2 s := by
  unfold controlSpool
  simp only [levels, (updateMotor1Speed_motor2 _ _ _ _).1, (updateMotor1Speed_motor2 _ _ _ _).2]

theorem updateMotor1Speed_levels1 (forwardTarget reverseTarget a : Nat) (s : State) :
    levels Motor.motor1 (updateMotor1Speed forwardTarget reverseTarget a s) =
      sequentialModel forwardTarget reverseTarget a
        s.MOTOR_1_FORWARD_OUTPUT_COMPARE s.MOTOR_1_REVERSE_OUTPUT_COMPARE := by
  unfold updateMotor1Speed sequentialModel levels rampStep
  dsimp only
  split_ifs <;> simp_all

theorem sequentialModel_full_step (enable : Bool) (f : Nat) :
    sequentialModel (u8 (if enable then 0x80 else 0x00)) 0x00 (u8 0x80) f 0 =
      (if enable then 0x80 else 0x00, 0) := by
  unfold sequentialModel
  cases enable
  · have h1 : rampStep f (u8 0x00) (u8 0x80) = 0 := by
      rw [rampStep_eq_min _ _ _ (by decide)]; simp [u8]
    have h2 : rampStep 0 0x00 (u8 0x80) = 0 := by decide
    simp [h1, h2]
  · have h1 : rampStep f (u8 0x80) (u8 0x80) = 0x80 := by
      rw [rampStep_eq_min _ _ _ (by decide)]; simp [u8]
    simp [h1]

theorem controlSpool_config_levels1 (enable : Bool) (s : State)
    (h : s.MOTOR_1_REVERSE_OUTPUT_COMPARE = 0) :
    levels Motor.motor1 (controlSpool config enable s) =
      (if enable then 0x80 else 0x00, 0) := by
  unfold controlSpool
  dsimp only
  rw [updateMotor1Speed_levels1, h]
  exact sequentialModel_full_step enable _

theorem controlGuide_config_levels2 (enable : Bool) (s : State)
    (h : s.MOTOR_2_REVERSE_OUTPUT_COMPARE = 0) :
    levels Motor.motor2 (controlGuide config enable s) =
      (if enable then 0x80 else 0x00, 0) := by
  have hc := guideCycle_levels2 config s
  simp only [levels, Prod.mk.injEq] at hc
  unfold controlGuide adjustedTarget
  dsimp only
  rw [updateMotor2Speed_sequential, hc.2, h]
  exact sequentialModel_full_step enable _

theorem loopBody_config_levels (s : State)
    (h1 : s.MOTOR_1_REVERSE_OUTPUT_COMPARE = 0) (h2 : s.MOTOR_2_REVERSE_OUTPUT_COMPARE = 0) :
    levels Motor.motor1 (loopBody config s) =
      (if (enablePart config (indicatorPart config s)).1 then 0x80 else 0x00, 0) ∧
    levels Motor.motor2 (loopBody config s) =
      (if (enablePart config (indicatorPart config s)).1 then 0x80 else 0x00, 0) := by
  have e1 := enablePart_levels config Motor.motor1 (indicatorPart config s)
  have e2 := enablePart_levels config Motor.motor2 (indicatorPart config s)
  rw [indicatorPart_levels] at e1 e2
  simp only [levels, Prod.mk.injEq] at e1 e2
  unfold loopBody
  dsimp only
  constructor
  · rw [controlGuide_levels1]
    exact controlSpool_config_levels1 _ _ (by rw [e1.2, h1])
  · refine controlGuide_config_levels2 _ _ ?_
    have := controlSpool_levels2 config (enablePart config (indicatorPart config s)).1
      (enablePart config (indicatorPart config s)).2
    simp only [levels, Prod.mk.injEq] at this
    rw [this.2, e2.2, h2]

theorem mainLoop_config_reverse (n : Nat) :
    (mainLoop config n).MOTOR_1_REVERSE_OUTPUT_COMPARE = 0 ∧
    (mainLoop config n).MOTOR_2_REVERSE_OUTPUT_COMPARE = 0 := by
  cases n with
  | zero => decide
  | succ k =>
    have ih := mainLoop_config_reverse k
    have h := loopBody_config_levels (mainLoop config k) ih.1 ih.2
    rw [mainLoop_succ]
    simp only [levels, Prod.mk.injEq] at h
    exact ⟨h.1.2, h.2.2⟩

/-! ## System output: claim -/

/-- C16: with the shipped configuration and the startup state set by
`initializeMotors`, after every iteration n of the main loop (n = 0 first) both
reverse levels are 0 and the spool and guide forward levels are equal: both 0x80
when the enable flag of that iteration is true, both 0x00 when it is false. -/
theorem loop_output_levels (n : Nat) :
    levels Motor.motor1 (mainLoop config (n + 1)) =
      (if enableAt config n then 0x80 else 0x00, 0) ∧
    levels Motor.motor2 (mainLoop config (n + 1)) =
      (if enableAt config n then 0x80 else 0x00, 0) ∧
    (mainLoop config (n + 1)).MOTOR_1_FORWARD_OUTPUT_COMPARE =
      (mainLoop config (n + 1)).MOTOR_2_FORWARD_OUTPUT_COMPARE := by
  have hr := mainLoop_config_reverse n
  have h := loopBody_config_levels (mainLoop config n) hr.1 hr.2
  rw [← mainLoop_succ] at h
  refine ⟨h.1, h.2, ?_⟩
  have h1 := h.1
  have h2 := h.2
  simp only [levels, Prod.mk.injEq] at h1 h2
  rw [h1.1, h2.1]

/-! ## Real periods of the enable gate and the guide pulse -/

/-- C17: for on/off periods with ENABLE_ON_PERIOD + ENABLE_OFF_PERIOD <= 65535, the
enable flag computed in loop iteration n (n = 0 first, counter starting at 0) is
true exactly when n mod (ON + OFF + 1) < ON; the flag is false in the OFF + 1
iterations ON, ..., ON + OFF of every cycle, the last of which resets the counter. -/
theorem enable_gate_real_period (cfg : Config)
    (h16 : cfg.ENABLE_ON_PERIOD + cfg.ENABLE_OFF_PERIOD ≤ 65535) (n : Nat) :
    (enableAt cfg n = true ↔
      n % (cfg.ENABLE_ON_PERIOD + cfg.ENABLE_OFF_PERIOD + 1) < cfg.ENABLE_ON_PERIOD) ∧
    (mainLoop cfg n).enableCounter =
      n % (cfg.ENABLE_ON_PERIOD + cfg.ENABLE_OFF_PERIOD + 1) ∧
    (n % (cfg.ENABLE_ON_PERIOD + cfg.ENABLE_OFF_PERIOD + 1) =
        cfg.ENABLE_ON_PERIOD + cfg.ENABLE_OFF_PERIOD →
      enableAt cfg n = false ∧ (mainLoop cfg (n + 1)).enableCounter = 0) := by
  have he := enableAt_eq cfg h16 n
  have hc := mainLoop_enableCounter cfg h16 n
  have hc1 := mainLoop_enableCounter cfg h16 (n + 1)
  refine ⟨by rw [he]; simp, hc, fun hlast => ⟨?_, ?_⟩⟩
  · rw [he, hlast]; simp
  · rw [hc1, succ_mod_cases _ _ (by omega), hlast]; simp

/-- Witness for C17: the shipped periods 1200 and 6000 at iteration 7200, the last
iteration of the first cycle. -/
theorem enable_gate_real_period_witness :
    (enableAt config 7200 = true ↔
      7200 % (config.ENABLE_ON_PERIOD + config.ENABLE_OFF_PERIOD + 1)
        < config.ENABLE_ON_PERIOD) ∧
    (mainLoop config 7200).enableCounter =
      7200 % (config.ENABLE_ON_PERIOD + config.ENABLE_OFF_PERIOD + 1) ∧
    (7200 % (config.ENABLE_ON_PERIOD + config.ENABLE_OFF_PERIOD + 1) =
        config.ENABLE_ON_PERIOD + config.ENABLE_OFF_PERIOD →
      enableAt config 7200 = false ∧ (mainLoop config (7200 + 1)).enableCounter = 0) :=
  enable_gate_real_period config (by decide) 7200

theorem updateMotor2Speed_statics (f r a : Nat) (s : State) :
    (updateMotor2Speed f r a s).counter = s.counter ∧
    (updateMotor2Speed f r a s).forwardTarget = s.forwardTarget := by
  unfold updateMotor2Speed
  dsimp only
  constructor <;> (split_ifs <;> rfl)

theorem controlGuide_statics (cfg : Config) (enable : Bool) (s : State) :
    (controlGuide cfg enable s).counter =
      (if u16 (s.counter + 1) = cfg.GUIDE_ON_PERIOD then u16 (u16 (s.counter + 1) + 1)
       else if u16 (s.counter + 1) = cfg.GUIDE_ON_PERIOD + cfg.GUIDE_OFF_PERIOD then 0
       else u16 (s.counter + 1)) ∧
    (controlGuide cfg enable s).forwardTarget =
      (if u16 (s.counter + 1) = cfg.GUIDE_ON_PERIOD then 0
       else if u16 (s.counter + 1) = cfg.GUIDE_ON_PERIOD + cfg.GUIDE_OFF_PERIOD then
         u8 cfg.GUIDE_SPEED
       else s.forwardTarget) := by
  unfold controlGuide
  dsimp only
  rw [(updateMotor2Speed_statics _ _ _ _).1, (updateMotor2Speed_statics _ _ _ _).2]
  unfold guideCycle
  dsimp only
  constructor <;> (split_ifs <;> rfl)

theorem guideRun_append_singleton (cfg : Config) (enables : List Bool) (enable : Bool)
    (s : State) :
    guideRun cfg (enables ++ [enable]) s = controlGuide cfg enable (guideRun cfg enables s) := by
  unfold guideRun
  rw [List.foldl_append]
  rfl

theorem guideRun_statics (cfg : Config)
    (hon : 1 ≤ cfg.GUIDE_ON_PERIOD) (hoff : 2 ≤ cfg.GUIDE_OFF_PERIOD)
    (h16 : cfg.GUIDE_ON_PERIOD + cfg.GUIDE_OFF_PERIOD ≤ 65535)
    (s : State) (hc : s.counter = 0) (hft : s.forwardTarget = u8 cfg.GUIDE_SPEED)
    (enables : List Bool) :
    (guideRun cfg enables s).counter =
      (if enables.length % (cfg.GUIDE_ON_PERIOD + cfg.GUIDE_OFF_PERIOD - 1)
          < cfg.GUIDE_ON_PERIOD
       then enables.length % (cfg.GUIDE_ON_PERIOD + cfg.GUIDE_OFF_PERIOD - 1)
       else enables.length % (cfg.GUIDE_ON_PERIOD + cfg.GUIDE_OFF_PERIOD - 1) + 1) ∧
    (guideRun cfg enables s).forwardTarget =
      (if enables.length % (cfg.GUIDE_ON_PERIOD + cfg.GUIDE_OFF_PERIOD - 1)
          < cfg.GUIDE_ON_PERIOD
       then u8 cfg.GUIDE_SPEED else 0) := by
  induction enables using List.reverseRecOn with
  | nil =>
    have : 0 < cfg.GUIDE_ON_PERIOD := hon
    simp [guideRun, hc, hft, this]
  | append_singleton es e ih =>
    have hp : 0 < cfg.GUIDE_ON_PERIOD + cfg.GUIDE_OFF_PERIOD - 1 := by omega
    have hlt := Nat.mod_lt es.length hp
    have hs := succ_mod_cases es.length _ hp
    rw [guideRun_append_singleton, (controlGuide_statics cfg e _).1,
      (controlGuide_statics cfg e _).2, ih.1, ih.2, List.length_append,
      List.length_singleton, hs]
    generalize es.length % (cfg.GUIDE_ON_PERIOD + cfg.GUIDE_OFF_PERIOD - 1) = j at hlt ⊢
    unfold u16
    constructor <;> (split_ifs <;> omega)

/-- C18: with GUIDE_ON_PERIOD = ON >= 1, GUIDE_OFF_PERIOD = OFF >= 2 and
ON + OFF <= 65535 (the other constants as shipped), after k calls of `controlGuide`
with any enable inputs, starting from counter = 0 and forwardTarget = GUIDE_SPEED,
the static forwardTarget is nonzero exactly when k mod (ON + OFF - 1) < ON, and the
static counter is below ON + OFF; in the call where the counter reaches ON it is
incremented a second time, to ON + 1. -/
theorem guide_pulse_real_period (onPeriod offPeriod : Nat)
    (hon : 1 ≤ onPeriod) (hoff : 2 ≤ offPeriod) (h16 : onPeriod + offPeriod ≤ 65535)
    (s : State) (hc : s.counter = 0)
    (hft : s.forwardTarget = u8 (withGuidePeriods config onPeriod offPeriod).GUIDE_SPEED)
    (enables : List Bool) :
    ((guideRun (withGuidePeriods config onPeriod offPeriod) enables s).forwardTarget ≠ 0 ↔
      enables.length % (onPeriod + offPeriod - 1) < onPeriod) ∧
    (guideRun (withGuidePeriods config onPeriod offPeriod) enables s).counter
      < onPeriod + offPeriod ∧
    (enables.length % (onPeriod + offPeriod - 1) = onPeriod →
      (guideRun (withGuidePeriods config onPeriod offPeriod) enables s).counter
        = onPeriod + 1) := by
  have h := guideRun_statics (withGuidePeriods config onPeriod offPeriod) hon hoff h16 s hc hft
    enables
  have hp : 0 < onPeriod + offPeriod - 1 := by omega
  have hlt := Nat.mod_lt enables.length hp
  have e1 : (withGuidePeriods config onPeriod offPeriod).GUIDE_ON_PERIOD = onPeriod := rfl
  have e2 : (withGuidePeriods config onPeriod offPeriod).GUIDE_OFF_PERIOD = offPeriod := rfl
  have e3 : u8 (withGuidePeriods config onPeriod offPeriod).GUIDE_SPEED = 0x80 := rfl
  rw [e1, e2, e3] at h
  rw [h.1, h.2]
  generalize enables.length % (onPeriod + offPeriod - 1) = j at hlt ⊢
  refine ⟨?_, ?_, ?_⟩
  · split_ifs with hj <;> simp [hj]
  · split_ifs <;> omega
  · intro hj
    split_ifs <;> omega

/-- Witness for C18: ON = 2, OFF = 3 from the startup state, four calls with mixed
enable inputs. -/
theorem guide_pulse_real_period_witness :
    ((guideRun (withGuidePeriods config 2 3) [true, false, true, true]
        (startup (withGuidePeriods config 2 3))).forwardTarget ≠ 0 ↔
      [true, false, true, true].length % (2 + 3 - 1) < 2) ∧
    (guideRun (withGuidePeriods config 2 3) [true, false, true, true]
        (startup (withGuidePeriods config 2 3))).counter < 2 + 3 ∧
    ([true, false, true, true].length % (2 + 3 - 1) = 2 →
      (guideRun (withGuidePeriods config 2 3) [true, false, true, true]
        (startup (withGuidePeriods config 2 3))).counter = 2 + 1) :=
  guide_pulse_real_period 2 3 (by decide) (by decide) (by decide)
    (startup (withGuidePeriods config 2 3)) rfl rfl [true, false, true, true]

end FabricRipper
